import Mathlib

/-!
Shallow embedding of the core of farm-os-area-feature-proxy (Python sources
src/wfs_resource.py and src/tx_drupal_rest_ws_client.py) together with
theorems settling the frozen claims about its specification.

Conventions of the embedding:
* Python byte strings and text strings are both modelled as Lean String.
* Python None is modelled as Option.none.
* Python dictionaries appearing in the modelled code paths are modelled as
  association lists with an explicit later-entry-overwrites insert.
* Python exceptions are modelled with Except; the distinct exception classes
  raised on the modelled paths are the constructors of PyError.
* datetimes are modelled by their Unix timestamps (Int); the conversion
  datetime.fromtimestamp is strictly monotone, so minima are preserved.
-/

namespace FosAFP

/-! ### Python-level helpers -/

/-- One Python exception class per failure mode reachable in the modelled code:
InvalidWfsRequest is the exception class declared in wfs_resource.py; TypeError
and ValueError are the builtin exceptions raised by misuse of -sorted- and by
version-string parsing. -/
inductive PyError where
  | invalidWfsRequest (msg : String)
  | typeError (msg : String)
  | valueError (msg : String)
deriving DecidableEq, Repr

/-- Mirrors the module-level helper of wfs_resource.py:
def _first(iterable, default): return next(iter(iterable), default),
specialized to the call sites whose default argument is None, so that the
result is an Option. -/
def _first? {α : Type} (l : List α) : Option α :=
  l.head?

/-- bytes.lower over the ASCII argument keys: lowercasing character by
character. -/
def pyLower (s : String) : String :=
  ⟨s.data.map Char.toLower⟩

/-- Python string comparison, lexicographic by code point over the character
sequences. -/
def pyStrLtChars : List Char → List Char → Bool
  | [], [] => false
  | [], _ :: _ => true
  | _ :: _, [] => false
  | a :: as, b :: bs => if a < b then true else if b < a then false else pyStrLtChars as bs

/-- Python string comparison on strings. -/
def pyStrLt (a b : String) : Bool :=
  pyStrLtChars a.data b.data

/-- str.startswith, over the character sequences. -/
def pyStartsWith (s pre : String) : Bool :=
  pre.data.isPrefixOf s.data

/-! ### Request arguments (wfs_resource.py, WfsResource.getChildWithDefault) -/

/-- request.args: a mapping from parameter name to the list of supplied values,
modelled as an association list. -/
abbrev Args := List (String × List String)

/-- Insert into an association list with dict semantics: an existing binding of
the key is overwritten in place, otherwise the binding is appended. -/
def dictInsert {α : Type} (d : List (String × α)) (k : String) (v : α) :
    List (String × α) :=
  if d.any (fun p => p.1 == k) then
    d.map (fun p => if p.1 == k then (k, v) else p)
  else
    d ++ [(k, v)]

/-- Mirrors args = \x7bk.lower(): v for k, v in request.args.items()\x7d: keys are
lowered and, on collision, the later entry wins, as in a dict comprehension. -/
def lowerKeys (args : Args) : Args :=
  args.foldl (fun d p => dictInsert d (pyLower p.1) p.2) []

/-- Mirrors args.get(key, ()): the value list bound to the key, or the empty
tuple when the key is absent. -/
def dictGet (d : Args) (k : String) : List String :=
  ((d.find? (fun p => p.1 == k)).map Prod.snd).getD []

/-! ### Version negotiation (wfs_resource.py lines 325-362) -/

/-- A semantic version, as used for WfsOnePointZeroResource.version. -/
structure SemVersion where
  major : Nat
  minor : Nat
  patch : Nat
deriving DecidableEq, Repr

/-- Split a character sequence at the dot characters. -/
def splitDots : List Char → List (List Char)
  | [] => [[]]
  | c :: rest =>
    if c = '.' then [] :: splitDots rest
    else
      match splitDots rest with
      | h :: t => (c :: h) :: t
      | [] => [[c]]

/-- The numeric value of a non-empty all-digit character sequence. -/
def charsToNat? (l : List Char) : Option Nat :=
  if l.isEmpty then none
  else
    l.foldl (fun acc c =>
      match acc with
      | some a => if c.isDigit then some (10 * a + (c.toNat - 48)) else none
      | none => none) (some 0)

/-- Parse a version string of the form "a.b.c", mirroring
semantic_version.Version on the well-formed inputs; malformed inputs make the
library raise ValueError, which the caller models explicitly. -/
def parseVersion (s : String) : Option SemVersion :=
  match (splitDots s.data).map charsToNat? with
  | [some a, some b, some c] => some ⟨a, b, c⟩
  | _ => none

/-- The versions of the registered version-specific resources: exactly
WfsOnePointZeroResource with version 1.0.0 (wfs_resource.py lines 330-333). -/
def supported_versions : List SemVersion :=
  [⟨1, 0, 0⟩]

/-- self._min_version = min(self._by_version.keys()) over the singleton key
set. -/
def min_version : SemVersion := ⟨1, 0, 0⟩

/-- self._max_version = max(self._by_version.keys()) over the singleton key
set. -/
def max_version : SemVersion := ⟨1, 0, 0⟩

/-- WfsResource.getChildWithDefault (wfs_resource.py lines 340-362), returning
the version of the selected version-specific resource. Notable modelled
behaviours of the source:
* the service argument must equal the byte string WFS exactly, else
  InvalidWfsRequest is raised;
* an absent or empty version argument selects the maximum supported version;
* a malformed version string makes semantic_version.Version raise ValueError;
* a well-formed version that is not an exact supported match reaches
  sorted(acceptable_versions, reversed=True) on line 360; the builtin sorted
  accepts the keyword reverse, not reversed, so this call raises TypeError
  before any element is compared, whatever the list contents. -/
def getChildWithDefault (rawArgs : Args) : Except PyError SemVersion :=
  let args := lowerKeys rawArgs
  let requested_service := _first? (dictGet args "service")
  if requested_service ≠ some "WFS" then
    .error (.invalidWfsRequest "All requests must include a service=WFS argument.")
  else
    match _first? (dictGet args "version") with
    | none => .ok max_version
    | some s =>
      if s = "" then
        .ok max_version
      else
        match parseVersion s with
        | none => .error (.valueError "Invalid version string")
        | some v =>
          if supported_versions.contains v then
            .ok v
          else
            .error (.typeError "reversed is an invalid keyword argument for sort()")

/-! ### Data model of the transaction machinery (wfs_resource.py lines 83-271) -/

/-- Geometry values are produced by the external geometry codec
(osgeo.ogr.CreateGeometryFromGML) from a serialized GML fragment; the codec is
out of scope, so the model carries the serialized fragment itself. -/
abbrev Geom := String

/-- Mirrors ogr.CreateGeometryFromGML applied to etree.tostring of the single
geometry child: the opaque external codec, modelled as carrying its input. -/
def createGeometryFromGML (gmlSrc : String) : Geom :=
  gmlSrc

/-- FeatureField (wfs_resource.py lines 83-96). -/
structure FeatureField where
  name : String
  field_type : String
  required : Bool
deriving DecidableEq, Repr

/-- LayerDefinition (wfs_resource.py lines 118-149). The operations attribute
is a Python set used only through membership tests in the modelled paths, so a
list with membership via contains is an adequate model; the opaque ext map is
never read by the modelled operations and is omitted. -/
structure LayerDef where
  name : String
  default_srs : String
  geometry_type : String
  title : Option String
  abstract : Option String
  operations : List String
  fields : List FeatureField
deriving DecidableEq, Repr

/-- UncommittedFeature (wfs_resource.py lines 152-171). -/
structure UncommittedFeature where
  layer_def : LayerDef
  geometry : Geom
  field_data : List (String × String)
  handle : Option String
deriving DecidableEq, Repr

/-- UncommittedFeatureUpdate (wfs_resource.py lines 174-196). field_data values
are the raw lxml text payloads, which can be None. -/
structure UncommittedFeatureUpdate where
  layer_def : LayerDef
  feature_id : String
  geometry : Option Geom
  field_data : List (String × Option String)
  handle : Option String
deriving DecidableEq, Repr

/-- UncommittedFeatureDelete (wfs_resource.py lines 199-212); the handle
parameter defaults to None. -/
structure UncommittedFeatureDelete where
  layer_def : LayerDef
  feature_id : String
  handle : Option String
deriving DecidableEq, Repr

/-- CommitOutcomeItem (wfs_resource.py lines 235-249); constructor signature
(data, layer_def=None, handle=None). -/
structure CommitOutcomeItem where
  data : String
  layer_def : Option LayerDef
  handle : Option String
deriving DecidableEq, Repr

/-- Transaction (wfs_resource.py lines 214-232). -/
structure Transaction where
  features_to_insert : List UncommittedFeature
  features_to_update : List UncommittedFeatureUpdate
  features_to_delete : List UncommittedFeatureDelete
  read_transaction_failures : List CommitOutcomeItem
deriving DecidableEq, Repr

/-- TransactionOutcome (wfs_resource.py lines 252-270). -/
structure TransactionOutcome where
  inserted_features : List CommitOutcomeItem
  updated_features : List CommitOutcomeItem
  deleted_features : List CommitOutcomeItem
  transaction_failures : List CommitOutcomeItem
deriving DecidableEq, Repr

/-- Concatenation of the contributions of successive actions: the Python loop
appends to four shared lists, in document order. -/
def Transaction.append (a b : Transaction) : Transaction :=
  ⟨a.features_to_insert ++ b.features_to_insert,
   a.features_to_update ++ b.features_to_update,
   a.features_to_delete ++ b.features_to_delete,
   a.read_transaction_failures ++ b.read_transaction_failures⟩

/-! ### The parsed request body

The abstract syntax below models the outcome of objectify.parse on a
wfs:Transaction body, at the level the handler consumes it (spec section 6
vocabulary).  Tag and attribute strings are stored after QName localname
extraction.  For Insert features, geometryChildren is the serialized child
list of the mandatory geometry child element; for Update and Delete, the
filter lists are the child lists of the ogc:Filter elements.  A body lacking
one of those mandatory child elements makes lxml.objectify raise
AttributeError while the handler reads it (outside the consumed vocabulary and
outside this embedding). -/

/-- A feature child element of a wfs:Insert action.  fieldText maps a child
element name to its text, for the children that have text: the source reads
getattr(getattr(feature, field.name, None), -text-, None), which is None both
for an absent child and for a child without text, so only text-bearing
children are represented. -/
structure FeatureElem where
  typeName : String
  geometryChildren : List Geom
  fieldText : List (String × String)
deriving DecidableEq, Repr

/-- Text of a named child of an insert feature element, if any. -/
def fieldTextOf (f : FeatureElem) (n : String) : Option String :=
  (f.fieldText.find? (fun p => p.1 == n)).map Prod.snd

/-- A wfs:Property child of a wfs:Update action: Name text (None when the Name
element is empty), the children of Value (consulted when the name is
geometry), and the Value text. -/
structure PropertyElem where
  name : Option String
  valueChildren : List Geom
  valueText : Option String
deriving DecidableEq, Repr

/-- A child of an ogc:Filter element: either an ogc:FeatureId carrying a fid
attribute, or an element with any other tag. -/
inductive FilterElem where
  | featureId (fid : String)
  | other (tag : String)
deriving DecidableEq, Repr

/-- A top-level child of the wfs:Transaction body, with the optional handle
attribute of the action element. -/
inductive ActionElem where
  | insertAct (handle : Option String) (features : List FeatureElem)
  | updateAct (handle : Option String) (typeName : String)
      (props : List PropertyElem) (filters : List (List FilterElem))
  | deleteAct (handle : Option String) (typeName : String)
      (filters : List FilterElem)
  | unknownAct (tag : String) (handle : Option String)
deriving DecidableEq, Repr

/-- Python repr of a string without quote characters in it, as produced by the
formatting directive for the TYPENAME failure messages. -/
def pyrepr (s : String) : String :=
  "\x27" ++ s ++ "\x27"

/-- Python repr of a list of strings, as produced by the formatting of the
missing-required-fields failure message. -/
def pyListRepr (l : List String) : String :=
  "[" ++ String.intercalate ", " (l.map pyrepr) ++ "]"

/-- Mirrors next(filter(lambda layer_def: layer_def.name == type_name,
layer_definitions), None). -/
def resolveLayer (lds : List LayerDef) (type_name : String) : Option LayerDef :=
  lds.find? (fun layer_def => layer_def.name == type_name)

/-! ### Reading one transaction action (wfs_resource.py lines 543-680)

Each reader returns the pair of the items it appends to its mutation list and
the failures it appends to wfs_read_transaction_failures, in append order. -/

/-- read_insert_feature (wfs_resource.py lines 543-587) for one feature child
of a wfs:Insert action. -/
def read_insert_feature (lds : List LayerDef) (handle : Option String)
    (feature : FeatureElem) :
    List UncommittedFeature × List CommitOutcomeItem :=
  let type_name := feature.typeName
  match resolveLayer lds type_name with
  | none =>
    ([], [⟨"Received invalid feature to insert for unknown TYPENAME: " ++ pyrepr type_name,
           none, handle⟩])
  | some layer_def =>
    if !(layer_def.operations.contains "Insert") then
      ([], [⟨"Received unsupported operation insert for TYPENAME: " ++ pyrepr type_name,
             none, handle⟩])
    else
      match feature.geometryChildren with
      | [g] =>
        let geometry := createGeometryFromGML g
        let field_items :=
          layer_def.fields.filterMap
            (fun field => (fieldTextOf feature field.name).map (fun v => (field.name, v)))
        let field_data := field_items.foldl (fun d p => dictInsert d p.1 p.2) []
        let missing_required_field_names :=
          (layer_def.fields.filter
            (fun field => field.required && (fieldTextOf feature field.name).isNone)).map
            (fun field => field.name)
        if missing_required_field_names.isEmpty then
          ([⟨layer_def, geometry, field_data, handle⟩], [])
        else
          ([], [⟨"Received invalid feature to insert with missing required fields: " ++
                 pyListRepr missing_required_field_names, some layer_def, handle⟩])
      | gs =>
        ([], [⟨"Received invalid feature to insert with " ++ toString gs.length ++ " geometries",
               some layer_def, handle⟩])

/-- The loop over the feature children of a wfs:Insert action
(wfs_resource.py lines 670-671). -/
def read_insert_features (lds : List LayerDef) (handle : Option String) :
    List FeatureElem → List UncommittedFeature × List CommitOutcomeItem
  | [] => ([], [])
  | f :: rest =>
    let r := read_insert_feature lds handle f
    let rr := read_insert_features lds handle rest
    (r.1 ++ rr.1, r.2 ++ rr.2)

/-- One step of the wfs:Property walk of read_update (wfs_resource.py lines
607-627): state is (geometry, field_data, failures so far).  A Name without
text is neither the geometry name nor a declared field key, so it changes
nothing; a geometry Value with child count different from one records a
failure and leaves the geometry unchanged; an undeclared property name is
silently skipped; a declared one is stored with dict overwrite semantics. -/
def read_update_props_step (layer_def : LayerDef) (handle : Option String)
    (st : Option Geom × List (String × Option String) × List CommitOutcomeItem)
    (p : PropertyElem) :
    Option Geom × List (String × Option String) × List CommitOutcomeItem :=
  match p.name with
  | none => st
  | some property_name =>
    if property_name = "geometry" then
      match p.valueChildren with
      | [g] => (some (createGeometryFromGML g), st.2.1, st.2.2)
      | gs =>
        (st.1, st.2.1,
         st.2.2 ++ [⟨"Received invalid feature update with " ++ toString gs.length ++ " geometries",
                    some layer_def, handle⟩])
    else
      if (layer_def.fields.find? (fun field => field.name == property_name)).isSome then
        (st.1, dictInsert st.2.1 property_name p.valueText, st.2.2)
      else
        st

/-- The children of one ogc:Filter element of a wfs:Update action
(wfs_resource.py lines 630-638).  The Bool records whether a non-FeatureId
child made read_update return early, abandoning the remaining filters but
keeping the updates already appended. -/
def read_update_one_filter (layer_def : LayerDef) (handle : Option String)
    (geometry : Option Geom) (field_data : List (String × Option String)) :
    List FilterElem → List UncommittedFeatureUpdate × List CommitOutcomeItem × Bool
  | [] => ([], [], false)
  | .featureId fid :: rest =>
    let r := read_update_one_filter layer_def handle geometry field_data rest
    (⟨layer_def, fid, geometry, field_data, handle⟩ :: r.1, r.2.1, r.2.2)
  | .other _ :: _ =>
    ([], [⟨"Only updating features by feature id is supported", some layer_def, handle⟩], true)

/-- The walk over the ogc:Filter siblings of a wfs:Update action
(wfs_resource.py line 629). -/
def read_update_filters (layer_def : LayerDef) (handle : Option String)
    (geometry : Option Geom) (field_data : List (String × Option String)) :
    List (List FilterElem) → List UncommittedFeatureUpdate × List CommitOutcomeItem
  | [] => ([], [])
  | fl :: rest =>
    let r := read_update_one_filter layer_def handle geometry field_data fl
    if r.2.2 then
      (r.1, r.2.1)
    else
      let rr := read_update_filters layer_def handle geometry field_data rest
      (r.1 ++ rr.1, r.2.1 ++ rr.2)

/-- read_update (wfs_resource.py lines 589-638). -/
def read_update (lds : List LayerDef) (handle : Option String) (typeName : String)
    (props : List PropertyElem) (filters : List (List FilterElem)) :
    List UncommittedFeatureUpdate × List CommitOutcomeItem :=
  match resolveLayer lds typeName with
  | none =>
    ([], [⟨"Received update for unknown TYPENAME: " ++ pyrepr typeName, none, handle⟩])
  | some layer_def =>
    if !(layer_def.operations.contains "Update") then
      ([], [⟨"Received unsupported operation update for TYPENAME: " ++ pyrepr typeName,
             none, handle⟩])
    else
      let st := props.foldl (read_update_props_step layer_def handle) (none, [], [])
      let r := read_update_filters layer_def handle st.1 st.2.1 filters
      (r.1, st.2.2 ++ r.2)

/-- The children of the ogc:Filter element of a wfs:Delete action
(wfs_resource.py lines 655-663).  A non-FeatureId child records a failure and
makes read_delete return, dropping the remaining children.  Note that line 663
constructs UncommittedFeatureDelete without passing the handle keyword, so the
handle field keeps its default None. -/
def read_delete_filters (layer_def : LayerDef) (handle : Option String) :
    List FilterElem → List UncommittedFeatureDelete × List CommitOutcomeItem
  | [] => ([], [])
  | .featureId fid :: rest =>
    let r := read_delete_filters layer_def handle rest
    (⟨layer_def, fid, none⟩ :: r.1, r.2)
  | .other _ :: _ =>
    ([], [⟨"Only deleting features by feature id is supported", some layer_def, handle⟩])

/-- read_delete (wfs_resource.py lines 640-663). -/
def read_delete (lds : List LayerDef) (handle : Option String) (typeName : String)
    (filters : List FilterElem) :
    List UncommittedFeatureDelete × List CommitOutcomeItem :=
  match resolveLayer lds typeName with
  | none =>
    ([], [⟨"Received delete for unknown TYPENAME: " ++ pyrepr typeName, none, handle⟩])
  | some layer_def =>
    if !(layer_def.operations.contains "Delete") then
      ([], [⟨"Received unsupported operation delete for TYPENAME: " ++ pyrepr typeName,
             none, handle⟩])
    else
      read_delete_filters layer_def handle filters

/-- The dispatch on one top-level action (wfs_resource.py lines 665-680),
as the contribution the action appends to the four shared lists.  For an
unrecognized tag, the failure message comes from
"Received unknown operation type: ".format(action.tag): the format string has
no placeholder, so the call returns it unchanged and the tag never appears in
the message. -/
def readAction (lds : List LayerDef) : ActionElem → Transaction
  | .insertAct handle feats =>
    let r := read_insert_features lds handle feats
    ⟨r.1, [], [], r.2⟩
  | .updateAct handle typeName props filters =>
    let r := read_update lds handle typeName props filters
    ⟨[], r.1, [], r.2⟩
  | .deleteAct handle typeName filters =>
    let r := read_delete lds handle typeName filters
    ⟨[], [], r.1, r.2⟩
  | .unknownAct _tag handle =>
    ⟨[], [], [], [⟨"Received unknown operation type: ", none, handle⟩]⟩

/-- The loop over the top-level actions of the body plus the Transaction
construction (wfs_resource.py lines 665-686). -/
def readTransaction (lds : List LayerDef) : List ActionElem → Transaction
  | [] => ⟨[], [], [], []⟩
  | a :: rest => (readAction lds a).append (readTransaction lds rest)

/-! ### Response assembly (wfs_resource.py lines 688-722 and 769-773) -/

/-- The key function nested in _group_by_handle: item.handle or the empty
string (a None handle and an empty handle both yield the empty string, the
falsy cases of the Python -or-). -/
def get_handle (item : CommitOutcomeItem) : String :=
  match item.handle with
  | none => ""
  | some h => h

/-- Stable insertion of an element into a list sorted by a string key: the
element lands after every element whose key is not greater. -/
def insertTail {α : Type} (key : α → String) (x : α) : List α → List α
  | [] => [x]
  | y :: ys => if pyStrLt (key x) (key y) then x :: y :: ys else y :: insertTail key x ys

/-- Mirrors sorted(items, key=key): the stable sort by key (the stable sorted
permutation of a list is unique, so any stable sorting algorithm models the
Python one). -/
def pySorted {α : Type} (key : α → String) (l : List α) : List α :=
  l.foldl (fun acc x => insertTail key x acc) []

/-- One step of itertools.groupby consumption: the incoming element is
compared with the key of the group being built and either extends it or opens
a new group.  Groups are accumulated in reverse. -/
def groupbyStep {α : Type} (eq : α → α → Bool) (acc : List (α × List α)) (y : α) :
    List (α × List α) :=
  match acc with
  | [] => [(y, [y])]
  | (k, g) :: rest =>
    if eq k y then (k, g ++ [y]) :: rest else (y, [y]) :: (k, g) :: rest

/-- Mirrors [(k, list(g)) for k, g in groupby(l)] for an equality test eq:
maximal runs of eq-equivalent consecutive elements, each keyed by its first
element. -/
def groupbyRuns {α : Type} (eq : α → α → Bool) (l : List α) : List (α × List α) :=
  (l.foldl (groupbyStep eq) []).reverse

/-- _group_by_handle (wfs_resource.py lines 769-773).  The source sorts by the
handle key but then calls groupby without a key function, so the elements
themselves are compared.  CommitOutcomeItem defines no equality, so CPython
compares the objects by identity; the model compares them structurally, which
agrees with identity on lists of pairwise structurally distinct items (the
case for every input considered in this development, since distinct outcome
items carry distinct feature ids or messages). -/
def _group_by_handle (items : List CommitOutcomeItem) :
    List (CommitOutcomeItem × List CommitOutcomeItem) :=
  groupbyRuns (fun a b => a == b) (pySorted get_handle items)

/-- One wfs:InsertResult element of the response: its ogc:FeatureId fid
attributes in order, and its optional handle attribute. -/
structure InsertResult where
  feature_ids : List String
  handle_attr : Option String
deriving DecidableEq, Repr

/-- optional_handle_attribute_for (wfs_resource.py lines 702-708): the handle
attribute is emitted only when the first item of the group has a truthy
handle; getattr(None, -handle-, empty) on an empty group and a None or empty
handle are all falsy. -/
def optional_handle_attribute_for (insert_results : List CommitOutcomeItem) :
    Option String :=
  match _first? insert_results with
  | none => none
  | some item =>
    match item.handle with
    | none => none
    | some h => if h = "" then none else some h

/-- The wfs:Status child of the TransactionResult. -/
inductive Status where
  | SUCCESS
  | PARTIAL
  | FAILED
deriving DecidableEq, Repr

/-- The parts of the wfs:TransactionResponse document the claims are about:
the status, the Message texts in order, and the InsertResult elements in
order. -/
structure TransactionResponse where
  status : Status
  messages : List String
  insert_results : List InsertResult
deriving DecidableEq, Repr

/-- Response assembly from the accumulated read failures and the commit
outcome (wfs_resource.py lines 690-722). -/
def buildResponse (wfs_read_transaction_failures : List CommitOutcomeItem)
    (transaction_outcome : TransactionOutcome) : TransactionResponse :=
  let insert_results_by_handle := _group_by_handle transaction_outcome.inserted_features
  let all_transaction_failures :=
    wfs_read_transaction_failures ++ transaction_outcome.transaction_failures
  let any_successes : Bool :=
    0 < transaction_outcome.inserted_features.length +
        transaction_outcome.updated_features.length +
        transaction_outcome.deleted_features.length
  let status :=
    if any_successes && all_transaction_failures.isEmpty then Status.SUCCESS
    else if any_successes then Status.PARTIAL
    else Status.FAILED
  ⟨status,
   all_transaction_failures.map (fun transaction_failure => transaction_failure.data),
   insert_results_by_handle.map
     (fun kg => ⟨kg.2.map (fun insert_result => insert_result.data),
                 optional_handle_attribute_for kg.2⟩)⟩

/-- TransactionCapabilityHandler.handle after the body parse (wfs_resource.py
lines 665-722), for an arbitrary feature server commit function.  The handler
body is straight-line: it assembles the Transaction, passes it to
commit_transaction, and builds the response from the outcome; the first
component collects the commit invocations in order, and is a one-element list
by construction because the source calls commit_transaction exactly once on
every path reaching it. -/
def handleTransaction (commit : Transaction → TransactionOutcome)
    (lds : List LayerDef) (body : List ActionElem) :
    List Transaction × TransactionResponse :=
  let transaction := readTransaction lds body
  let transaction_outcome := commit transaction
  ([transaction], buildResponse transaction.read_transaction_failures transaction_outcome)

/-! ### Session expiry derivation (tx_drupal_rest_ws_client.py lines 208-231)

Expiry instants are modelled by their Unix timestamps: cookie.expires is the
timestamp or None, and datetime.fromtimestamp is strictly monotone, so minima
over datetimes and over timestamps coincide.  timedelta(hours=24) is 86400
seconds. -/

/-- A cookie of the cookie jar, reduced to the attributes the derivation
reads. -/
structure Cookie where
  name : String
  expires : Option Int
deriving DecidableEq, Repr

/-- The loop of _derive_session_expiry_date_time (lines 212-223): one pass over
the jar appending each expiry-bearing cookie to all_cookie_expiries and, when
its name starts with SESS, also to session_cookie_expiries, in jar order. -/
def collectExpiries : List Cookie → List Int × List Int
  | [] => ([], [])
  | c :: rest =>
    let r := collectExpiries rest
    match c.expires with
    | none => r
    | some e =>
      if pyStartsWith c.name "SESS" then (e :: r.1, e :: r.2) else (r.1, e :: r.2)

/-- Python min over a list, None on the empty list (where the builtin would
raise; both call sites guard with a non-emptiness test). -/
def pymin : List Int → Option Int
  | [] => none
  | x :: xs => some (xs.foldl min x)

/-- TxDrupalRestWsClient._derive_session_expiry_date_time (lines 208-231). -/
def _derive_session_expiry_date_time (cookie_jar : List Cookie) (now : Int) : Int :=
  let p := collectExpiries cookie_jar
  match pymin p.1 with
  | some m => m
  | none =>
    match pymin p.2 with
    | some m => m
    | none => now + 24 * 60 * 60

/-! ### Pagination (tx_drupal_rest_ws_client.py lines 233-287)

The mutable page graph is modelled by a store: a list of page objects whose
neighbor references are indices into the store.  The backend
(client._get_entities) is a function from the requested page number (the value
of the page filter) to the raw page it returns. -/

/-- A raw page as returned by the backend: its record list and the page number
parsed from its last-page link (None when the link is absent, in which case
the parse of the default falls back to page 0). -/
structure RawPage where
  recordList : List String
  lastLinkPage : Option Nat
deriving DecidableEq, Repr

/-- TxDrupalEntityPage reduced to the attributes _get_page reads and writes:
page_num = int(filters.get(page, 0)), max_page_num parsed from the raw page,
and the two lazy neighbor references. -/
structure PageObj where
  page_num : Nat
  max_page_num : Nat
  records : List String
  prev_page_ref : Option Nat
  next_page_ref : Option Nat
deriving DecidableEq, Repr

/-- TxDrupalEntityPage.__init__ (lines 234-242) for filters whose page value
is pageNum and with both neighbor references None. -/
def mkPageObj (pageNum : Nat) (raw : RawPage) : PageObj :=
  ⟨pageNum, raw.lastLinkPage.getD 0, raw.recordList, none, none⟩

/-- A traversal direction, naming which reference variable _get_page receives
as page_ref_var. -/
inductive PageDir where
  | nextDir
  | prevDir
deriving DecidableEq, Repr

/-- getattr(self, page_ref_var). -/
def pageRef (p : PageObj) : PageDir → Option Nat
  | .nextDir => p.next_page_ref
  | .prevDir => p.prev_page_ref

/-- setattr(page, ref_var, r) for the reference variable of the direction. -/
def setPageRef (p : PageObj) (d : PageDir) (r : Option Nat) : PageObj :=
  match d with
  | .nextDir => { p with next_page_ref := r }
  | .prevDir => { p with prev_page_ref := r }

/-- back_ref_var is the reference variable of the opposite direction. -/
def PageDir.opposite : PageDir → PageDir
  | .nextDir => .prevDir
  | .prevDir => .nextDir

/-- TxDrupalEntityPage._get_page (lines 262-287) acting on the page store:
returns the updated store and the index of the returned page, None when the
target page number is out of range.  Line 276 of the source sets the page
filter of the fetch to str(self.page_num + 1) for both traversal
directions. -/
def _get_page (fetch : Nat → RawPage) (store : List PageObj) (selfId : Nat)
    (dir : PageDir) (forgetful : Bool) : List PageObj × Option Nat :=
  match store.get? selfId with
  | none => (store, none)
  | some self =>
    let target_page_num : Int :=
      match dir with
      | .nextDir => (self.page_num : Int) + 1
      | .prevDir => (self.page_num : Int) - 1
    if target_page_num < 0 ∨ (self.max_page_num : Int) < target_page_num then
      (store, none)
    else
      match pageRef self dir with
      | some r => (store, some r)
      | none =>
        let fetched_page_num := self.page_num + 1
        let raw := fetch fetched_page_num
        let this_page_ref : Option Nat := if forgetful then none else some selfId
        let newId := store.length
        let target := setPageRef (mkPageObj fetched_page_num raw) dir.opposite this_page_ref
        ((store.set selfId (setPageRef self dir (some newId))) ++ [target], some newId)

/-- TxDrupalEntityPage.prev_page (lines 250-251). -/
def prev_page (fetch : Nat → RawPage) (store : List PageObj) (selfId : Nat)
    (forgetful : Bool) : List PageObj × Option Nat :=
  _get_page fetch store selfId .prevDir forgetful

/-- TxDrupalEntityPage.next_page (lines 256-257). -/
def next_page (fetch : Nat → RawPage) (store : List PageObj) (selfId : Nat)
    (forgetful : Bool) : List PageObj × Option Nat :=
  _get_page fetch store selfId .nextDir forgetful

/-! ### Auxiliary predicates and concrete inputs -/

/-- Whether a call result is the InvalidWfsRequest rejection. -/
def isInvalidWfsRequest : Except PyError SemVersion → Bool
  | .error (.invalidWfsRequest _) => true
  | _ => false

/-- A Delete action that resolves to a known layer permitting Delete and whose
filter children are at least one and all of a kind other than FeatureId. -/
def unsupportedFilterDelete (lds : List LayerDef) : ActionElem → Bool
  | .deleteAct _ typeName filters =>
    (match resolveLayer lds typeName with
     | some layer_def => layer_def.operations.contains "Delete"
     | none => false)
    && !filters.isEmpty
    && filters.all (fun f => match f with | .featureId _ => false | .other _ => true)
  | _ => false

/-- Modelled from the spec: ProxyFeatureServer.commit_transaction, the only
concrete commit function of the repository, is not under src/.  Spec section
4.4 says commit executes the transaction insert/update/delete work items and
converts each per-item backend failure into a transaction_failure outcome
item, so committing the transaction with no work items and no read failures
yields the outcome with all four collections empty.  A commit function
satisfies this model when it maps the empty transaction to the empty
outcome. -/
def commitEmptyToEmpty (commit : Transaction → TransactionOutcome) : Prop :=
  commit ⟨[], [], [], []⟩ = ⟨[], [], [], []⟩

/-- A demonstration layer permitting every operation. -/
def demo_layer : LayerDef :=
  ⟨"area", "EPSG:4326", "GeometryPropertyType", none, none,
   ["Query", "Insert", "Update", "Delete"], []⟩

/-- A transaction body holding a single Delete action whose only filter child
is not a FeatureId. -/
def demo_unsupported_delete_body : List ActionElem :=
  [.deleteAct (some "d1") "area" [.other "PropertyIsEqualTo"]]

/-- A commit function used to instantiate the handler in witnesses. -/
def demo_commit : Transaction → TransactionOutcome :=
  fun _ => ⟨[], [], [], []⟩

/-- Three inserted-feature outcome items: two sharing handle h1 and one with
no handle. -/
def demo_inserted_items : List CommitOutcomeItem :=
  [⟨"area.1", none, some "h1"⟩, ⟨"area.2", none, some "h1"⟩, ⟨"area.3", none, none⟩]

/-- A backend with three pages (numbers 0, 1 and 2), each raw page carrying
one record naming its page number and a last-page link naming page 2. -/
def demo_backend (n : Nat) : RawPage :=
  ⟨["record-page-" ++ toString n], some 2⟩

/-! ### Theorems for the claims -/

/-- C1: WFS version negotiation by WfsResource.getChildWithDefault.  The claim
holds for an absent version parameter and for an exact match, but the
fallback branch for any other well-formed version raises TypeError, because
line 360 calls sorted with the invalid keyword reversed: requesting version
0.9.0 (below the single supported version 1.0.0, where the claim requires the
lowest supported version) reaches that branch and raises instead of returning
an engine. -/
theorem C1_version_selection :
    getChildWithDefault [("service", ["WFS"]), ("version", ["0.9.0"])]
      = .error (.typeError "reversed is an invalid keyword argument for sort()")
  ∧ getChildWithDefault [("service", ["WFS"])] = .ok max_version
  ∧ getChildWithDefault [("service", ["WFS"]), ("version", ["1.0.0"])] = .ok ⟨1, 0, 0⟩
  ∧ getChildWithDefault [("service", ["WFS"]), ("version", ["2.0.0"])]
      = .error (.typeError "reversed is an invalid keyword argument for sort()") := by
  refine ⟨rfl, rfl, rfl, rfl⟩

/-- C5: the gateway rejects with InvalidWfsRequest exactly the requests whose
arguments carry no service parameter equal to WFS, and getChildWithDefault
performs no feature-server call at all (its model is a pure function of the
request arguments alone), so no FeatureServer method can run before the
rejection. -/
theorem C5_service_gate (rawArgs : Args) :
    isInvalidWfsRequest (getChildWithDefault rawArgs) = true ↔
      _first? (dictGet (lowerKeys rawArgs) "service") ≠ some "WFS" := by
  unfold getChildWithDefault
  by_cases h : _first? (dictGet (lowerKeys rawArgs) "service") = some "WFS"
  · simp only [h, ne_eq, not_true_eq_false, if_neg, if_false, iff_false]
    split
    · simp [isInvalidWfsRequest]
    · split
      · simp [isInvalidWfsRequest]
      · split
        · simp [isInvalidWfsRequest]
        · split
          · simp [isInvalidWfsRequest]
          · simp [isInvalidWfsRequest]
  · simp [h, isInvalidWfsRequest]

/-- C10: an action with an unrecognized tag contributes exactly one read
failure carrying the action handle, whose message is the constant
"Received unknown operation type: " with the tag absent, since the format
string has no placeholder; two distinct unknown tags hence record equal
messages, and the loop continues with the remaining actions. -/
theorem C10_unknown_operation_message (lds : List LayerDef) (tag1 tag2 : String)
    (handle : Option String) (rest : List ActionElem) :
    readAction lds (.unknownAct tag1 handle)
      = ⟨[], [], [], [⟨"Received unknown operation type: ", none, handle⟩]⟩
  ∧ (readAction lds (.unknownAct tag1 handle)).read_transaction_failures
      = (readAction lds (.unknownAct tag2 handle)).read_transaction_failures
  ∧ (readTransaction lds (.unknownAct tag1 handle :: rest)).read_transaction_failures
      = ⟨"Received unknown operation type: ", none, handle⟩
          :: (readTransaction lds rest).read_transaction_failures := by
  refine ⟨rfl, rfl, ?_⟩
  simp [readTransaction, readAction, Transaction.append]

/-- C6: a Delete action with a handle, resolving to a known layer permitting
Delete, emits its UncommittedFeatureDelete with handle None, because line 663
omits the handle keyword; the matching Update path does pass the handle
through.  The claim says the delete item carries the action handle. -/
theorem C6_delete_handle_dropped :
    read_delete [demo_layer] (some "d1") "area" [.featureId "area.7"]
      = ([⟨demo_layer, "area.7", none⟩], [])
  ∧ (read_update_one_filter demo_layer (some "u1") none [] [.featureId "area.8"]).1
      = [⟨demo_layer, "area.8", none, [], some "u1"⟩] := by
  refine ⟨by decide, by decide⟩

/-- C2: with two inserted items sharing handle h1 and one with no handle, the
response carries three InsertResult elements, one per item, because
_group_by_handle sorts by handle but then calls groupby without a key
function, so each outcome object forms its own group; the claim requires two
elements, with the h1 group listing two feature ids. -/
theorem C2_groupby_without_key :
    (buildResponse [] ⟨demo_inserted_items, [], [], []⟩).insert_results
      = [⟨["area.3"], none⟩, ⟨["area.1"], some "h1"⟩, ⟨["area.2"], some "h1"⟩]
  ∧ (buildResponse [] ⟨demo_inserted_items, [], [], []⟩).insert_results.length = 3 := by
  refine ⟨by decide, by decide⟩

/-- C8: on a page with page number 1 of a three-page listing and no cached
neighbor reference, prev_page fetches with the page filter set to
str(self.page_num + 1) = 2 (source line 276 ignores the target page number),
so it returns the page holding the records of page 2, where the claim
requires page 0; the out-of-range guard itself behaves as claimed. -/
theorem C8_prev_page_fetches_wrong_page :
    (prev_page demo_backend [mkPageObj 1 (demo_backend 1)] 0 false).2 = some 1
  ∧ ((prev_page demo_backend [mkPageObj 1 (demo_backend 1)] 0 false).1.get? 1).map
        (fun p => p.page_num) = some 2
  ∧ ((prev_page demo_backend [mkPageObj 1 (demo_backend 1)] 0 false).1.get? 1).map
        (fun p => p.records) = some ["record-page-2"]
  ∧ (prev_page demo_backend [mkPageObj 0 (demo_backend 0)] 0 false).2 = none := by
  refine ⟨by decide, by decide, by decide, by decide⟩

/-! ### Helper lemmas -/

/-- The status of the assembled response, rephrased through the success and
failure counts. -/
theorem buildResponse_status_eq (reads : List CommitOutcomeItem) (o : TransactionOutcome) :
    (buildResponse reads o).status =
      if 0 < o.inserted_features.length + o.updated_features.length + o.deleted_features.length then
        if reads.length + o.transaction_failures.length = 0 then Status.SUCCESS
        else Status.PARTIAL
      else Status.FAILED := by
  unfold buildResponse
  by_cases hs : 0 < o.inserted_features.length + o.updated_features.length + o.deleted_features.length
  · by_cases hf : reads ++ o.transaction_failures = []
    · have hf0 : reads.length + o.transaction_failures.length = 0 := by
        have := congrArg List.length hf
        simpa using this
      simp [hs, hf, hf0, List.isEmpty_iff]
    · have hf0 : reads.length + o.transaction_failures.length ≠ 0 := by
        intro hcon
        apply hf
        rw [← List.length_eq_zero, List.length_append]
        exact hcon
      simp [hs, hf, hf0, List.isEmpty_iff]
  · simp [hs]

/-- A Delete filter list that is non-empty and has no FeatureId child yields
no deletes and exactly the unsupported-filter failure. -/
theorem read_delete_filters_all_other (layer_def : LayerDef) (handle : Option String)
    (filters : List FilterElem) (hne : filters ≠ [])
    (hall : ∀ f ∈ filters, (match f with | .featureId _ => false | .other _ => true) = true) :
    read_delete_filters layer_def handle filters
      = ([], [⟨"Only deleting features by feature id is supported", some layer_def, handle⟩]) := by
  cases filters with
  | nil => exact absurd rfl hne
  | cons f rest =>
    cases f with
    | featureId fid =>
      have := hall (.featureId fid) (by simp)
      simp at this
    | other t => rfl

/-- An action satisfying unsupportedFilterDelete contributes no delete item
and at least one read failure. -/
theorem readAction_unsupported_delete (lds : List LayerDef) (a : ActionElem)
    (h : unsupportedFilterDelete lds a = true) :
    (readAction lds a).features_to_delete = []
    ∧ (readAction lds a).read_transaction_failures ≠ [] := by
  cases a with
  | insertAct handle feats => simp [unsupportedFilterDelete] at h
  | updateAct handle typeName props filters => simp [unsupportedFilterDelete] at h
  | unknownAct tag handle => simp [unsupportedFilterDelete] at h
  | deleteAct handle typeName filters =>
    unfold unsupportedFilterDelete at h
    rw [Bool.and_eq_true, Bool.and_eq_true] at h
    obtain ⟨⟨h1, h2⟩, h3⟩ := h
    cases hr : resolveLayer lds typeName with
    | none =>
      rw [hr] at h1
      exact absurd h1 (by simp)
    | some layer_def =>
      rw [hr] at h1
      have h1c : layer_def.operations.contains "Delete" = true := h1
      have hne : filters ≠ [] := by
        cases filters with
        | nil => simp at h2
        | cons f rest => simp
      have hall : ∀ f ∈ filters,
          (match f with | .featureId _ => false | .other _ => true) = true := by
        simpa [List.all_eq_true] using h3
      have hstep : read_delete lds handle typeName filters
          = read_delete_filters layer_def handle filters := by
        unfold read_delete
        rw [hr]
        have hmem : "Delete" ∈ layer_def.operations := by simpa using h1c
        simp [hmem]
      have hrd : read_delete lds handle typeName filters
          = ([], [⟨"Only deleting features by feature id is supported", some layer_def, handle⟩]) := by
        rw [hstep]
        exact read_delete_filters_all_other layer_def handle filters hne hall
      constructor
      · show (readAction lds (.deleteAct handle typeName filters)).features_to_delete = []
        simp [readAction, hrd]
      · show (readAction lds (.deleteAct handle typeName filters)).read_transaction_failures ≠ []
        simp [readAction, hrd]

/-- Over a body of unsupported-filter deletes, the assembled Transaction has
no delete item, and at least one read failure when the body is non-empty. -/
theorem readTransaction_unsupported_deletes (lds : List LayerDef) (body : List ActionElem)
    (h : ∀ a ∈ body, unsupportedFilterDelete lds a = true) :
    (readTransaction lds body).features_to_delete = []
    ∧ (body ≠ [] → (readTransaction lds body).read_transaction_failures ≠ []) := by
  induction body with
  | nil => simp [readTransaction]
  | cons a rest ih =>
    have ha := readAction_unsupported_delete lds a (h a (by simp))
    have hr := ih (fun x hx => h x (by simp [hx]))
    constructor
    · show ((readAction lds a).append (readTransaction lds rest)).features_to_delete = []
      simp [Transaction.append, ha.1, hr.1]
    · intro _
      show ((readAction lds a).append (readTransaction lds rest)).read_transaction_failures ≠ []
      simp only [Transaction.append, ne_eq, List.append_eq_nil, not_and]
      intro hcon
      exact absurd hcon ha.2

/-- The collected expiry lists are the expiries of the session-prefixed
cookies having one and of all cookies having one, in jar order. -/
theorem collectExpiries_eq (jar : List Cookie) :
    collectExpiries jar =
      (jar.filterMap (fun c => if pyStartsWith c.name "SESS" then c.expires else none),
       jar.filterMap (fun c => c.expires)) := by
  induction jar with
  | nil => rfl
  | cons c rest ih =>
    simp only [collectExpiries, ih]
    cases hc : c.expires with
    | none => simp [List.filterMap_cons, hc]
    | some e =>
      by_cases hn : pyStartsWith c.name "SESS" = true
      · simp [List.filterMap_cons, hc, hn]
      · simp [List.filterMap_cons, hc, hn]

/-- The fold of min lands in the list it folds over (with its initial
element). -/
theorem foldl_min_mem (x : Int) (xs : List Int) : xs.foldl min x ∈ x :: xs := by
  induction xs generalizing x with
  | nil => simp
  | cons y ys ih =>
    simp only [List.foldl_cons]
    have h := ih (min x y)
    rcases List.mem_cons.mp h with h | h
    · rw [h]
      rcases min_choice x y with hm | hm <;> simp [hm]
    · simp [h]

/-- The fold of min is a lower bound of the list it folds over. -/
theorem foldl_min_le (x : Int) (xs : List Int) : ∀ e ∈ x :: xs, xs.foldl min x ≤ e := by
  induction xs generalizing x with
  | nil =>
    intro e he
    simp at he
    simp [he]
  | cons y ys ih =>
    intro e he
    simp only [List.foldl_cons]
    have hbase := ih (min x y) (min x y) (by simp)
    rcases List.mem_cons.mp he with rfl | he2
    · exact le_trans hbase (min_le_left _ _)
    · rcases List.mem_cons.mp he2 with rfl | he3
      · exact le_trans hbase (min_le_right _ _)
      · exact ih (min x y) e (by simp [he3])

/-- Python min of a non-empty list is its least member. -/
theorem pymin_spec (l : List Int) (m : Int) (h : pymin l = some m) :
    m ∈ l ∧ ∀ e ∈ l, m ≤ e := by
  cases l with
  | nil => simp [pymin] at h
  | cons x xs =>
    simp only [pymin, Option.some.injEq] at h
    subst h
    exact ⟨foldl_min_mem x xs, foldl_min_le x xs⟩

/-- Python min is None exactly on the empty list. -/
theorem pymin_none (l : List Int) : pymin l = none ↔ l = [] := by
  cases l <;> simp [pymin]

/-! ### Theorems for the remaining claims -/

/-- C3: the handler passes the assembled Transaction to commit_transaction
exactly once for every parsed body, whatever the accumulated read failures;
and for a body of Delete actions on known Delete-permitting layers whose
filter children are all of unsupported kinds, that Transaction has an empty
features_to_delete and a non-empty read_transaction_failures. -/
theorem C3_commit_always_invoked (commit : Transaction → TransactionOutcome)
    (lds : List LayerDef) (body : List ActionElem) :
    (handleTransaction commit lds body).1 = [readTransaction lds body]
  ∧ ((∀ a ∈ body, unsupportedFilterDelete lds a = true) → body ≠ [] →
      (readTransaction lds body).features_to_delete = []
      ∧ (readTransaction lds body).read_transaction_failures ≠ []) := by
  refine ⟨rfl, ?_⟩
  intro hall hne
  have h := readTransaction_unsupported_deletes lds body hall
  exact ⟨h.1, h.2 hne⟩

/-- Witness for C3 at a concrete single-action body. -/
theorem C3_commit_always_invoked_witness :
    (handleTransaction demo_commit [demo_layer] demo_unsupported_delete_body).1
      = [readTransaction [demo_layer] demo_unsupported_delete_body]
  ∧ (readTransaction [demo_layer] demo_unsupported_delete_body).features_to_delete = []
  ∧ (readTransaction [demo_layer] demo_unsupported_delete_body).read_transaction_failures ≠ [] := by
  have h := C3_commit_always_invoked demo_commit [demo_layer] demo_unsupported_delete_body
  have h2 := h.2 (by decide) (by decide)
  exact ⟨h.1, h2.1, h2.2⟩

/-- C4: with S the count of inserted, updated and deleted outcome items and F
the count of read failures plus commit failures, the response status is
SUCCESS exactly when F = 0 and S is at least 1, PARTIAL exactly when both F
and S are at least 1, FAILED exactly when S = 0; and the TransactionResult
carries one Message per failure, read failures first, in order. -/
theorem C4_status_derivation (reads : List CommitOutcomeItem) (o : TransactionOutcome) :
    ((buildResponse reads o).status = Status.SUCCESS ↔
      reads.length + o.transaction_failures.length = 0 ∧
      1 ≤ o.inserted_features.length + o.updated_features.length + o.deleted_features.length)
  ∧ ((buildResponse reads o).status = Status.PARTIAL ↔
      1 ≤ reads.length + o.transaction_failures.length ∧
      1 ≤ o.inserted_features.length + o.updated_features.length + o.deleted_features.length)
  ∧ ((buildResponse reads o).status = Status.FAILED ↔
      o.inserted_features.length + o.updated_features.length + o.deleted_features.length = 0)
  ∧ (buildResponse reads o).messages
      = (reads ++ o.transaction_failures).map (fun transaction_failure => transaction_failure.data) := by
  refine ⟨?_, ?_, ?_, rfl⟩
  · rw [buildResponse_status_eq]
    split_ifs with hs hf
    · exact iff_of_true rfl ⟨hf, hs⟩
    · exact iff_of_false (by simp) (fun hc => hf hc.1)
    · exact iff_of_false (by simp) (fun hc => hs hc.2)
  · rw [buildResponse_status_eq]
    split_ifs with hs hf
    · exact iff_of_false (by simp) (fun hc => by omega)
    · exact iff_of_true rfl ⟨by omega, hs⟩
    · exact iff_of_false (by simp) (fun hc => hs hc.2)
  · rw [buildResponse_status_eq]
    split_ifs with hs hf
    · exact iff_of_false (by simp) (by omega)
    · exact iff_of_false (by simp) (by omega)
    · exact iff_of_true rfl (by omega)

/-- C9: a Transaction body with zero top-level actions assembles the empty
transaction, whose commit (modelled from the spec for the proxy feature
server) yields the empty outcome, so the response status is FAILED; and any
commit outcome with no inserted, updated or deleted item yields status FAILED
whatever the failure lists, so an empty transaction is never reported
SUCCESS even with zero failures. -/
theorem C9_empty_transaction_failed (commit : Transaction → TransactionOutcome)
    (lds : List LayerDef) (reads : List CommitOutcomeItem) (o : TransactionOutcome)
    (hcommit : commitEmptyToEmpty commit)
    (h1 : o.inserted_features = []) (h2 : o.updated_features = [])
    (h3 : o.deleted_features = []) :
    (handleTransaction commit lds []).2.status = Status.FAILED
  ∧ (buildResponse reads o).status = Status.FAILED := by
  constructor
  · show (buildResponse (readTransaction lds []).read_transaction_failures
      (commit (readTransaction lds []))).status = Status.FAILED
    have hb : readTransaction lds [] = ⟨[], [], [], []⟩ := rfl
    rw [hb, hcommit]
    rfl
  · rw [buildResponse_status_eq]
    simp [h1, h2, h3]

/-- Witness for C9 at a concrete commit function and outcome. -/
theorem C9_empty_transaction_failed_witness :
    (handleTransaction demo_commit [demo_layer] []).2.status = Status.FAILED
  ∧ (buildResponse [⟨"a read failure", none, none⟩]
        ⟨[], [], [], [⟨"a commit failure", none, none⟩]⟩).status = Status.FAILED := by
  exact C9_empty_transaction_failed demo_commit [demo_layer]
    [⟨"a read failure", none, none⟩] ⟨[], [], [], [⟨"a commit failure", none, none⟩]⟩
    rfl rfl rfl rfl

/-- C7: the derived session expiry is the least expiry among the
session-prefixed cookies having one; with no such cookie, the least expiry
among all cookies having one; with no expiring cookie at all, the current
time plus 24 hours. -/
theorem C7_session_expiry (cookie_jar : List Cookie) (now : Int) :
    ((cookie_jar.filterMap (fun c => if pyStartsWith c.name "SESS" then c.expires else none)) ≠ [] →
      _derive_session_expiry_date_time cookie_jar now
          ∈ cookie_jar.filterMap (fun c => if pyStartsWith c.name "SESS" then c.expires else none)
      ∧ ∀ e ∈ cookie_jar.filterMap (fun c => if pyStartsWith c.name "SESS" then c.expires else none),
          _derive_session_expiry_date_time cookie_jar now ≤ e)
  ∧ ((cookie_jar.filterMap (fun c => if pyStartsWith c.name "SESS" then c.expires else none)) = [] →
      (cookie_jar.filterMap (fun c => c.expires)) ≠ [] →
      _derive_session_expiry_date_time cookie_jar now
          ∈ cookie_jar.filterMap (fun c => c.expires)
      ∧ ∀ e ∈ cookie_jar.filterMap (fun c => c.expires),
          _derive_session_expiry_date_time cookie_jar now ≤ e)
  ∧ ((cookie_jar.filterMap (fun c => c.expires)) = [] →
      _derive_session_expiry_date_time cookie_jar now = now + 24 * 60 * 60) := by
  have hc := collectExpiries_eq cookie_jar
  refine ⟨?_, ?_, ?_⟩
  · intro hne
    cases hm : pymin (cookie_jar.filterMap
        (fun c => if pyStartsWith c.name "SESS" then c.expires else none)) with
    | none => exact absurd ((pymin_none _).mp hm) hne
    | some m =>
      have hspec := pymin_spec _ _ hm
      unfold _derive_session_expiry_date_time
      rw [hc]
      simp only at *
      rw [hm]
      exact hspec
  · intro hsess hall
    cases hm : pymin (cookie_jar.filterMap (fun c => c.expires)) with
    | none => exact absurd ((pymin_none _).mp hm) hall
    | some m =>
      have hspec := pymin_spec _ _ hm
      have hmnone : pymin (cookie_jar.filterMap
          (fun c => if pyStartsWith c.name "SESS" then c.expires else none)) = none := by
        rw [pymin_none]
        exact hsess
      unfold _derive_session_expiry_date_time
      rw [hc]
      simp only at *
      rw [hmnone, hm]
      exact hspec
  · intro hall
    have hsess : (cookie_jar.filterMap
        (fun c => if pyStartsWith c.name "SESS" then c.expires else none)) = [] := by
      rw [List.filterMap_eq_nil_iff] at hall ⊢
      intro c hcmem
      rw [hall c hcmem]
      simp
    unfold _derive_session_expiry_date_time
    rw [hc]
    simp only at *
    rw [(pymin_none _).mpr hsess, (pymin_none _).mpr hall]

/-- Witness for C7 at a concrete cookie jar. -/
theorem C7_session_expiry_witness :
    _derive_session_expiry_date_time
      [⟨"SESS123", some 100⟩, ⟨"other", some 50⟩] 0 = 100 := by
  have h := (C7_session_expiry [⟨"SESS123", some 100⟩, ⟨"other", some 50⟩] 0).1 (by decide)
  have hlist : ([⟨"SESS123", some 100⟩, ⟨"other", some 50⟩] : List Cookie).filterMap
      (fun c => if pyStartsWith c.name "SESS" then c.expires else none) = [100] := by decide
  have h2 := h.1
  rw [hlist] at h2
  simpa using h2

end FosAFP
